import Mathlib

/-! Shallow embedding of `src/bot.py` (a Telegram session-monitoring bot).

The script scrapes a dashboard for the latest "cognitive session", renders a
status message and drives a start/stop-able periodic job.  Network fetches and
HTML parsing (requests / BeautifulSoup) are external effects; they are modelled
by explicit outcome values (`ListFetch`, `FetchResult`) passed as parameters,
while every decision the Python code makes on those outcomes is translated
here.  Python dicts are modelled as insertion-ordered association lists with
Python's update-in-place semantics; `datetime.utcnow()` becomes an explicit
`now : Int` parameter (seconds); exceptions become `Option`/`Except`.
-/

namespace SessionBot

/-! Section: configuration (defaults from `os.getenv` at `bot.py` lines 17-19) -/

/-- Default of `INTERVAL_SEC = int(os.getenv("INTERVAL_AUTO_SEC", "240"))`. -/
def INTERVAL_SEC : Nat := 240

/-- Default of `STUCK_MIN = int(os.getenv("STUCK_THRESHOLD_MIN", "10"))`. -/
def STUCK_MIN : Nat := 10

/-! Section: Python dict / str primitives -/

/-- A Python `dict[str, str]`: insertion-ordered association list with unique
keys (uniqueness is maintained by `dictInsert`). -/
abbrev Dict := List (String × String)

/-- Python `d.get(k)` and `k in d`: first (and only) binding of `k`. -/
def dictGet (d : Dict) (k : String) : Option String :=
  (d.find? (fun p => p.1 == k)).map (fun p => p.2)

/-- Python `d[k] = v`: update in place when `k` is present (keeping its position,
as Python dicts do), otherwise append a new binding. -/
def dictInsert (d : Dict) (k v : String) : Dict :=
  if d.any (fun p => p.1 == k) then
    d.map (fun p => if p.1 == k then (k, v) else p)
  else d ++ [(k, v)]

/-- Python `str.strip()`: drop ASCII whitespace from both ends. -/
def pyStrip (s : String) : String :=
  ⟨(s.data.dropWhile Char.isWhitespace).reverse.dropWhile Char.isWhitespace |>.reverse⟩

/-- Python `str.rstrip(":")`: drop trailing colons. -/
def pyRstripColon (s : String) : String :=
  ⟨(s.data.reverse.dropWhile (fun c => c == ':')).reverse⟩

/-- Whether `patt` is an initial segment of `cs`. -/
def listStartsWith : List Char → List Char → Bool
  | [], _ => true
  | _ :: _, [] => false
  | p :: ps, c :: cs => p == c && listStartsWith ps cs

/-- Core of Python `str.replace`: scan left to right, replacing leftmost
non-overlapping occurrences.  `fuel` bounds the recursion by the input
length (each step consumes at least one character). -/
def replaceFuel (patt repl : List Char) : Nat → List Char → List Char
  | _, [] => []
  | 0, cs => cs
  | fuel + 1, c :: cs =>
    if listStartsWith patt (c :: cs) then
      repl ++ replaceFuel patt repl fuel ((c :: cs).drop patt.length)
    else
      c :: replaceFuel patt repl fuel cs

/-- Python `s.replace(patt, repl)` for a non-empty pattern (the code only
ever replaces the literal `"Status:"`). -/
def pyReplace (s patt repl : String) : String :=
  ⟨replaceFuel patt.data repl.data s.data.length s.data⟩

/-! Section: `parse_dt` (bot.py lines 33-35).

`datetime.strptime(s.strip(), "%d/%m/%Y, %H.%M.%S")`, returning `none` where
Python raises `ValueError`.  strptime's directives `%d %m %H %M %S` match one
or two digits (value-range checked), `%Y` exactly four; `datetime` additionally
checks calendar validity (day fits the month, year ≥ 1, second ≤ 59). -/

structure PyDateTime where
  year : Nat
  month : Nat
  day : Nat
  hour : Nat
  minute : Nat
  second : Nat
deriving DecidableEq, Repr

/-- Value of a digit run, most significant first. -/
def digitsVal (ds : List Char) : Nat :=
  ds.foldl (fun a c => a * 10 + (c.toNat - 48)) 0

/-- Consume a maximal digit run of length between `lo` and `hi`. -/
def takeDigits (lo hi : Nat) (cs : List Char) : Option (Nat × List Char) :=
  let ds := cs.takeWhile Char.isDigit
  if lo ≤ ds.length ∧ ds.length ≤ hi then
    some (digitsVal ds, cs.drop ds.length)
  else none

/-- Consume one expected literal character. -/
def expectChar (c : Char) : List Char → Option (List Char)
  | [] => none
  | x :: rest => if x = c then some rest else none

def isLeap (y : Nat) : Bool := (y % 4 = 0 && y % 100 ≠ 0) || y % 400 = 0

def daysInMonth (y m : Nat) : Nat :=
  if m = 2 then (if isLeap y then 29 else 28)
  else if m = 4 ∨ m = 6 ∨ m = 9 ∨ m = 11 then 30
  else 31

def parse_dt (s : String) : Option PyDateTime := do
  let cs := (pyStrip s).data
  let (d, cs) ← takeDigits 1 2 cs
  let cs ← expectChar '/' cs
  let (m, cs) ← takeDigits 1 2 cs
  let cs ← expectChar '/' cs
  let (y, cs) ← takeDigits 4 4 cs
  let cs ← expectChar ',' cs
  let cs ← expectChar ' ' cs
  let (hh, cs) ← takeDigits 1 2 cs
  let cs ← expectChar '.' cs
  let (mm, cs) ← takeDigits 1 2 cs
  let cs ← expectChar '.' cs
  let (ss, cs) ← takeDigits 1 2 cs
  if cs = [] ∧ 1 ≤ y ∧ 1 ≤ m ∧ m ≤ 12 ∧ 1 ≤ d ∧ d ≤ daysInMonth y m ∧
      hh ≤ 23 ∧ mm ≤ 59 ∧ ss ≤ 59 then
    pure ⟨y, m, d, hh, mm, ss⟩
  else none

/-- Days since 1970-01-01 of a proleptic-Gregorian civil date
(the standard civil-from-days inverse), used to give `datetime` subtraction
its exact meaning in seconds. -/
def daysFromCivil (y m d : Int) : Int :=
  let y := if m ≤ 2 then y - 1 else y
  let era := Int.fdiv y 400
  let yoe := y - era * 400
  let doy := Int.fdiv (153 * (m + (if m > 2 then -3 else 9)) + 2) 5 + d - 1
  let doe := yoe * 365 + Int.fdiv yoe 4 - Int.fdiv yoe 100 + doy
  era * 146097 + doe - 719468

/-- A `datetime` as seconds since the epoch; `a - b > timedelta(minutes=k)`
becomes `dtToSec a - dtToSec b > k * 60`. -/
def dtToSec (t : PyDateTime) : Int :=
  daysFromCivil t.year t.month t.day * 86400 +
    t.hour * 3600 + t.minute * 60 + t.second

/-! Section: `get_session_data` (bot.py lines 74-99).

The fetch+parse of the detail page is the external boundary: a successful
fetch yields the first `h2` text (if any) and the (label, value) text pairs of
the overview rows; any `requests` failure is the `failure` outcome, caught by
the `except Exception` which leaves the default dict untouched.
(BeautifulSoup itself does not raise on malformed markup.) -/

structure Doc where
  h2 : Option String
  rows : List (String × String)

inductive FetchResult where
  | failure
  | success (doc : Doc)

/-- One overview row (lines 91-96): `data[lbl.text.strip().rstrip(":")] =
val.text.strip()`. -/
def rowInsert (d : Dict) (r : String × String) : Dict :=
  dictInsert d (pyRstripColon (pyStrip r.1)) (pyStrip r.2)

def get_session_data (session_id : String) (fetch : FetchResult) : Dict :=
  let data : Dict := [("id", session_id), ("status", "Unknown")]
  match fetch with
  | .failure => data
  | .success doc =>
    let data :=
      match doc.h2 with
      | none => data
      | some t => dictInsert data "status" (pyStrip (pyReplace (pyStrip t) "Status:" ""))
    doc.rows.foldl rowInsert data

/-! Section: `format_message` (bot.py lines 102-116).

`datetime.utcnow()` is passed in as `now` (seconds since epoch).
`data['id']` raises `KeyError` when absent, hence the `Option` result;
every caller builds `data` with an `"id"` binding. -/

/-- The stuck check of lines 109-115: `"Started" in data and "Ended" not in
data`, `parse_dt` under `try/except`, and the strict `>` comparison with
`timedelta(minutes=STUCK_MIN)`. -/
def stuck_flag (data : Dict) (now : Int) : Bool :=
  match dictGet data "Started", dictGet data "Ended" with
  | some s, none =>
    match parse_dt s with
    | some st => decide (now - dtToSec st > (STUCK_MIN : Int) * 60)
    | none => false
  | _, _ => false

def stuckLine : String := "\n⚠️ Session STUCK lebih dari " ++ toString STUCK_MIN ++ " menit!"

def format_message (data : Dict) (now : Int) : Option String :=
  match dictGet data "id" with
  | none => none
  | some idv =>
    let lines := ["Session #" ++ idv, "Status: " ++ (dictGet data "status").getD "" ++ "\n"]
    let lines := lines ++
      (data.filter (fun p => ¬(p.1 = "id" ∨ p.1 = "status"))).map
        (fun p => p.1 ++ ": " ++ p.2)
    let lines := if stuck_flag data now then lines ++ [stuckLine] else lines
    some (String.intercalate "\n" lines)

/-! Section: `get_latest_session_id` (bot.py lines 38-71).

The HTTP GET and the raw JSON / regex mechanics are the external boundary.
A successful fetch yields a `ListPage`:
* `jsonIds`: `some ids` when `r.json()` parsed and the `int(...)` conversions
  succeeded, gathering the candidate ids (possibly the empty list); `none`
  when `r.json()` or an `int(...)` raised `ValueError` (both are caught by the
  inner `except ValueError`, which falls through to the regexes);
* `regexCognitive`: the numbers matched by `re.findall(r"/cognitive/(\d+)")`;
* `regexSession`: the numbers matched by `re.findall(r"Session #(\d+)")`
  (digit strings, hence `Nat`).
Any other exception (network error, `raise_for_status`) is the `failure`
outcome, caught by the outer `except Exception` which returns `None`. -/

structure ListPage where
  jsonIds : Option (List Int)
  regexCognitive : List Nat
  regexSession : List Nat

inductive ListFetch where
  | failure
  | success (page : ListPage)

/-- Python `max` over a nonempty list (raises on `[]`, always guarded). -/
def pyMax (x : Int) (xs : List Int) : Int := xs.foldl max x

def get_latest_session_id (f : ListFetch) : Option String :=
  match f with
  | .failure => none
  | .success p =>
    match p.jsonIds with
    | some (i :: rest) => some (toString (pyMax i rest))
    | _ =>
      -- fallback regex: `ids = findall("/cognitive/(\d+)")`, else `findall("Session #(\d+)")`
      let ids := if p.regexCognitive ≠ [] then p.regexCognitive else p.regexSession
      match ids with
      | [] => none
      | i :: rest => some (toString (pyMax (Int.ofNat i) (rest.map Int.ofNat)))

/-- The list of candidate ids the code takes its `max` over (the JSON ids when
the JSON branch produced any, otherwise the first nonempty regex result). -/
def candidates (p : ListPage) : List Int :=
  match p.jsonIds with
  | some (i :: rest) => i :: rest
  | _ =>
    if p.regexCognitive ≠ [] then p.regexCognitive.map Int.ofNat
    else p.regexSession.map Int.ofNat

/-! Section: `auto_job` (bot.py lines 129-139).

One periodic poll cycle.  The result is the text sent to the Telegram
`sendMessage` endpoint, or `none` when nothing is sent.  `sid` is
`str(max(...))`, never the empty string, so `if not sid` is `sid is None`. -/

def auto_job (listF : ListFetch) (detailF : String → FetchResult) (now : Int) :
    Option String :=
  match get_latest_session_id listF with
  | none => none
  | some sid =>
    (format_message (get_session_data sid (detailF sid)) now).map
      (fun m => "[Auto Update]\n" ++ m)

/-- Two consecutive poll cycles over the same extractor outcomes (the script
holds no state between cycles, so each cycle is the same function of the fetch
outcomes and the clock). -/
def run_twice (listF : ListFetch) (detailF : String → FetchResult) (t₁ t₂ : Int) :
    Option String × Option String :=
  (auto_job listF detailF t₁, auto_job listF detailF t₂)

/-! Section: scheduler handlers (bot.py lines 29-30, 141-156).

`scheduler = BackgroundScheduler()` is a process-wide singleton; the handlers
only ever use the single job id `"auto_job"`, so the apscheduler job store is
the flag `hasJob` and the scheduler's running flag is `started`.  Library
semantics of apscheduler used by this code: `get_job` tests presence,
`add_job` registers, `remove_job` deregisters, and `scheduler.start()` raises
`SchedulerAlreadyRunningError` when the scheduler is already started —
`stop_handler` never shuts the scheduler down, only removes the job. -/

structure SchedState where
  hasJob : Bool
  started : Bool
deriving DecidableEq, Repr

/-- Process start: no job registered, scheduler never started. -/
def initSched : SchedState := ⟨false, false⟩

inductive SchedError where
  | schedulerAlreadyRunning
deriving DecidableEq, Repr

/-- Model of `BackgroundScheduler.start()`. -/
def schedulerStart (s : SchedState) : Except SchedError SchedState :=
  if s.started then .error .schedulerAlreadyRunning
  else .ok { s with started := true }

/-- The `/update` handler: the reply text is the acknowledgement sent to the user;
an uncaught exception from `scheduler.start()` is the `Except.error` case. -/
def update_handler (s : SchedState) : Except SchedError (SchedState × String) :=
  if s.hasJob then .ok (s, "⚠️ Auto-update sudah berjalan.")
  else
    match schedulerStart { s with hasJob := true } with
    | .error e => .error e
    | .ok s2 => .ok (s2, "✅ Auto-update tiap " ++ toString INTERVAL_SEC ++ " detik aktif.")

/-- The `/stop` handler. -/
def stop_handler (s : SchedState) : Except SchedError (SchedState × String) :=
  if s.hasJob then .ok ({ s with hasJob := false }, "⏸️ Auto-update dihentikan.")
  else .ok (s, "⚠️ Belum ada auto-update berjalan.")

/-- A periodic tick fires only when the scheduler has been started and the
`auto_job` job is registered. -/
def tickFires (s : SchedState) : Bool := s.started && s.hasJob

/-! Section: concrete scenario values used by the theorems below. -/

/-- A detail dict as built for a session that started but never ended. -/
def stuckDict : Dict :=
  [("id", "42"), ("status", "Running"), ("Started", "16/5/2025, 12.49.25")]

/-- The `Started` instant of `stuckDict`, in seconds. -/
def startedSec : Int := dtToSec ⟨2025, 5, 16, 12, 49, 25⟩

/-- A successful list fetch whose JSON ids are 41 and 42. -/
def listOk : ListFetch := .success ⟨some [41, 42], [], []⟩

/-- A detail fetch that always succeeds with a small overview. -/
def detailOk : String → FetchResult :=
  fun _ => .success ⟨some "Status: Running", [("Duration", "5m")]⟩

/-! Section: dictionary lemmas. -/

theorem dictGet_dictInsert_self (d : Dict) (k v : String) :
    dictGet (dictInsert d k v) k = some v := by
  unfold dictGet dictInsert
  by_cases h : d.any (fun p => p.1 == k) = true
  · rw [if_pos h, List.find?_map]
    have hq : ((fun p : String × String => p.1 == k) ∘
        (fun p : String × String => if p.1 == k then (k, v) else p)) =
        (fun p : String × String => p.1 == k) := by
      funext p
      by_cases hp : p.1 = k <;> simp [hp]
    rw [hq]
    obtain ⟨p₀, hmem, hp₀⟩ := List.any_eq_true.mp h
    cases hf : d.find? (fun p => p.1 == k) with
    | none => exact absurd (List.find?_eq_none.mp hf p₀ hmem) (by simp [hp₀])
    | some p₁ =>
      have hk := List.find?_some hf
      have hk' : p₁.1 = k := by simpa using hk
      simp [hk']
  · rw [if_neg h, List.find?_append]
    have hnone : d.find? (fun p => p.1 == k) = none :=
      List.find?_eq_none.mpr fun x hx hqx => h (List.any_eq_true.mpr ⟨x, hx, hqx⟩)
    simp [hnone]

theorem dictGet_dictInsert_ne (d : Dict) (k k' v : String) (h : ¬k' = k) :
    dictGet (dictInsert d k' v) k = dictGet d k := by
  unfold dictGet dictInsert
  by_cases hany : d.any (fun p => p.1 == k') = true
  · rw [if_pos hany, List.find?_map]
    have hq : ((fun p : String × String => p.1 == k) ∘
        (fun p : String × String => if p.1 == k' then (k', v) else p)) =
        (fun p : String × String => p.1 == k) := by
      funext p
      by_cases hp : p.1 = k' <;> simp [hp, h]
    rw [hq]
    cases hf : d.find? (fun p => p.1 == k) with
    | none => rfl
    | some p₁ =>
      have hk := List.find?_some hf
      have hk' : p₁.1 = k := by simpa using hk
      have hne : ¬p₁.1 = k' := by rw [hk']; exact fun hh => h hh.symm
      simp [hne]
  · rw [if_neg hany, List.find?_append]
    have hsingle : List.find? (fun p : String × String => p.1 == k) [(k', v)] = none := by
      simp [h]
    rw [hsingle]
    cases d.find? (fun p => p.1 == k) <;> rfl

theorem dictGet_dictInsert_isSome (d : Dict) (k k' v : String)
    (h : (dictGet d k).isSome = true) :
    (dictGet (dictInsert d k' v) k).isSome = true := by
  by_cases hk : k' = k
  · subst hk; rw [dictGet_dictInsert_self]; rfl
  · rw [dictGet_dictInsert_ne d k k' v hk]; exact h

theorem dictGet_foldl_rowInsert_isSome (rows : List (String × String)) (d : Dict)
    (k : String) (h : (dictGet d k).isSome = true) :
    (dictGet (rows.foldl rowInsert d) k).isSome = true := by
  induction rows generalizing d with
  | nil => exact h
  | cons r rest ih =>
    exact ih (rowInsert d r) (dictGet_dictInsert_isSome _ _ _ _ h)

theorem dictGet_foldl_rowInsert_ne (rows : List (String × String)) (d : Dict)
    (k : String) (h : ∀ r ∈ rows, ¬pyRstripColon (pyStrip r.1) = k) :
    dictGet (rows.foldl rowInsert d) k = dictGet d k := by
  induction rows generalizing d with
  | nil => rfl
  | cons r rest ih =>
    rw [List.foldl_cons, ih _ (fun x hx => h x (List.mem_cons_of_mem _ hx))]
    exact dictGet_dictInsert_ne _ _ _ _ (h r (List.mem_cons_self _ _))

/-! Section: shape lemmas for `get_session_data` and `format_message`. -/

theorem get_session_data_failure (sid : String) :
    get_session_data sid .failure = [("id", sid), ("status", "Unknown")] := rfl

theorem get_session_data_success (sid : String) (h2 : Option String)
    (rows : List (String × String)) :
    get_session_data sid (.success ⟨h2, rows⟩) =
      rows.foldl rowInsert
        (match h2 with
         | none => [("id", sid), ("status", "Unknown")]
         | some t =>
           dictInsert [("id", sid), ("status", "Unknown")] "status"
             (pyStrip (pyReplace (pyStrip t) "Status:" ""))) := by
  cases h2 <;> rfl

theorem get_session_data_id_isSome (sid : String) (f : FetchResult) :
    (dictGet (get_session_data sid f) "id").isSome = true := by
  cases f with
  | failure => rfl
  | success doc =>
    cases doc with
    | mk h2 rows =>
      rw [get_session_data_success]
      apply dictGet_foldl_rowInsert_isSome
      cases h2 with
      | none => rfl
      | some t =>
        apply dictGet_dictInsert_isSome
        rfl

theorem get_session_data_status_isSome (sid : String) (f : FetchResult) :
    (dictGet (get_session_data sid f) "status").isSome = true := by
  cases f with
  | failure => rfl
  | success doc =>
    cases doc with
    | mk h2 rows =>
      rw [get_session_data_success]
      apply dictGet_foldl_rowInsert_isSome
      cases h2 with
      | none => rfl
      | some t =>
        rw [dictGet_dictInsert_self]
        rfl

theorem format_message_isSome (data : Dict) (now : Int)
    (h : (dictGet data "id").isSome = true) :
    (format_message data now).isSome = true := by
  unfold format_message
  cases hid : dictGet data "id" with
  | none => simp [hid] at h
  | some idv => rfl

/-! Section: lemmas about `pyMax` (Python `max` over a nonempty list). -/

theorem pyMax_cons (x a : Int) (l : List Int) : pyMax x (a :: l) = pyMax (max x a) l := rfl

theorem le_pyMax_init (x : Int) (xs : List Int) : x ≤ pyMax x xs := by
  induction xs generalizing x with
  | nil => exact le_refl x
  | cons a l ih => exact le_trans (le_max_left x a) (ih (max x a))

theorem le_pyMax_of_mem {y : Int} (x : Int) (xs : List Int) (h : y ∈ xs) :
    y ≤ pyMax x xs := by
  induction xs generalizing x with
  | nil => cases h
  | cons a l ih =>
    rcases List.mem_cons.mp h with rfl | h'
    · exact le_trans (le_max_right x y) (le_pyMax_init _ l)
    · exact ih _ h'

theorem le_pyMax_head (y x : Int) (xs : List Int) (h : y ∈ x :: xs) :
    y ≤ pyMax x xs := by
  rcases List.mem_cons.mp h with rfl | h'
  · exact le_pyMax_init y xs
  · exact le_pyMax_of_mem x xs h'

theorem pyMax_mem (x : Int) (xs : List Int) : pyMax x xs ∈ x :: xs := by
  induction xs generalizing x with
  | nil => exact List.mem_singleton.mpr rfl
  | cons a l ih =>
    rw [pyMax_cons]
    rcases List.mem_cons.mp (ih (max x a)) with heq | hmem
    · rcases max_choice x a with hx | hx
      · rw [heq, hx]; exact List.mem_cons_self _ _
      · rw [heq, hx]; exact List.mem_cons_of_mem _ (List.mem_cons_self _ _)
    · exact List.mem_cons_of_mem _ (List.mem_cons_of_mem _ hmem)

theorem pyMax_perm_eq {x y : Int} {xs ys : List Int}
    (h : (x :: xs).Perm (y :: ys)) : pyMax x xs = pyMax y ys := by
  apply le_antisymm
  · exact le_pyMax_head _ _ _ (h.mem_iff.mp (pyMax_mem x xs))
  · exact le_pyMax_head _ _ _ (h.symm.mem_iff.mp (pyMax_mem y ys))

/-- The selection step of `get_latest_session_id` is exactly Python's
`str(max(candidates))` over the candidate list of the branch taken. -/
theorem get_latest_eq_candidates (p : ListPage) :
    get_latest_session_id (.success p) =
      match candidates p with
      | [] => none
      | i :: rest => some (toString (pyMax i rest)) := by
  rcases p with ⟨jsonIds, rc, rs⟩
  rcases jsonIds with _ | ids
  · by_cases hc : rc = []
    · subst hc
      cases rs with
      | nil => rfl
      | cons i rest => rfl
    · cases rc with
      | nil => exact absurd rfl hc
      | cons i rest => rfl
  · rcases ids with _ | ⟨i, rest⟩
    · by_cases hc : rc = []
      · subst hc
        cases rs with
        | nil => rfl
        | cons i rest => rfl
      · cases rc with
        | nil => exact absurd rfl hc
        | cons i rest => rfl
    · rfl

/-! Section: the claims. -/

/-- Claim C3 (confirmed): for every non-empty candidate list produced by
extraction (JSON branch or either regex fallback), the chosen "latest" id is
the numerically maximal candidate, and the choice is invariant under
permutation of the candidates (arrival order is irrelevant). -/
theorem c3_latest_is_numeric_max (p : ListPage) (i : Int) (rest : List Int)
    (h : candidates p = i :: rest) :
    get_latest_session_id (.success p) = some (toString (pyMax i rest)) ∧
    pyMax i rest ∈ candidates p ∧
    (∀ y ∈ candidates p, y ≤ pyMax i rest) ∧
    ∀ q : ListPage, (candidates q).Perm (candidates p) →
      get_latest_session_id (.success q) = get_latest_session_id (.success p) := by
  refine ⟨?_, ?_, ?_, ?_⟩
  · rw [get_latest_eq_candidates, h]
  · rw [h]; exact pyMax_mem i rest
  · rw [h]; intro y hy; exact le_pyMax_head y i rest hy
  · intro q hq
    rw [h] at hq
    rcases hcq : candidates q with _ | ⟨j, rs⟩
    · rw [hcq] at hq
      simpa using hq.length_eq
    · rw [get_latest_eq_candidates q, hcq, get_latest_eq_candidates p, h]
      rw [hcq] at hq
      exact congrArg (fun z => some (toString z)) (pyMax_perm_eq hq)

/-- Witness for C3 at the concrete JSON candidate list `[41, 42]`. -/
theorem c3_latest_is_numeric_max_witness :
    get_latest_session_id (.success ⟨some [41, 42], [], []⟩) = some "42" :=
  ((c3_latest_is_numeric_max ⟨some [41, 42], [], []⟩ 41 [42] rfl).1).trans (by rfl)

/-- Claim C5 (confirmed): `/update` while the job is registered replies
"already running" and leaves the state unchanged (no second timer); one
`/stop` from any job-registered state deregisters the job, after which no
tick fires; `/stop` with no registered job replies "not running" without
raising and leaves the state unchanged. -/
theorem c5_scheduler_idempotent (s t : SchedState)
    (hs : s.hasJob = true) (ht : t.hasJob = false) :
    update_handler s = .ok (s, "⚠️ Auto-update sudah berjalan.") ∧
    stop_handler s = .ok ({ s with hasJob := false }, "⏸️ Auto-update dihentikan.") ∧
    tickFires { s with hasJob := false } = false ∧
    stop_handler t = .ok (t, "⚠️ Belum ada auto-update berjalan.") := by
  refine ⟨?_, ?_, ?_, ?_⟩
  · simp [update_handler, hs]
  · simp [stop_handler, hs]
  · simp [tickFires]
  · simp [stop_handler, ht]

/-- Witness for C5: a running state (job registered, scheduler started) and
the initial stopped state. -/
theorem c5_scheduler_idempotent_witness :
    update_handler ⟨true, true⟩ = .ok (⟨true, true⟩, "⚠️ Auto-update sudah berjalan.") ∧
    stop_handler ⟨true, true⟩ = .ok (⟨false, true⟩, "⏸️ Auto-update dihentikan.") ∧
    tickFires ⟨false, true⟩ = false ∧
    stop_handler initSched = .ok (initSched, "⚠️ Belum ada auto-update berjalan.") :=
  c5_scheduler_idempotent ⟨true, true⟩ initSched rfl rfl

/-- Claim C10 (confirmed): from the initial state, `/update` then `/stop`
then `/update` reaches `scheduler.start()` with the scheduler already
started (stop only removed the job), so the second start raises
`SchedulerAlreadyRunningError` instead of acknowledging activation. -/
theorem c10_start_stop_start_raises :
    update_handler initSched =
      .ok (⟨true, true⟩, "✅ Auto-update tiap 240 detik aktif.") ∧
    stop_handler ⟨true, true⟩ = .ok (⟨false, true⟩, "⏸️ Auto-update dihentikan.") ∧
    update_handler ⟨false, true⟩ = .error .schedulerAlreadyRunning := by
  refine ⟨rfl, rfl, rfl⟩

/-- Claim C7 (corrected) counterexample: a detail document whose `h2` heading
text is exactly `"Status:"` yields the empty string as status — the code
overwrites the `"Unknown"` sentinel with the stripped heading text, which can
be empty, so "status is never the empty string" is false. -/
theorem c7_counterexample :
    dictGet (get_session_data "42" (.success ⟨some "Status:", []⟩)) "status" =
      some "" := rfl

/-- Claim C7 (corrected, amended): the `status` key is always present; when
the fetch fails (so no heading is parsed) it is the sentinel `"Unknown"` —
but a present heading may set it to the empty string (see the
counterexample). -/
theorem c7_status_always_present (sid : String) (f : FetchResult) :
    (dictGet (get_session_data sid f) "status").isSome = true ∧
    dictGet (get_session_data sid .failure) "status" = some "Unknown" :=
  ⟨get_session_data_status_isSome sid f, rfl⟩

/-- Claim C9 (corrected) counterexample: on a successful fetch whose overview
has a row labelled `"id"`, the row write `data[key] = val` overwrites the
`"id"` binding, so the returned mapping's `"id"` is not the requested
session id. -/
theorem c9_counterexample :
    dictGet (get_session_data "42" (.success ⟨none, [("id", "999")]⟩)) "id" =
      some "999" := rfl

/-- Claim C9 (corrected, amended): `get_session_data` is total and always
returns a mapping with keys `"id"` and `"status"`; on fetch failure the
result is exactly `{"id": sid, "status": "Unknown"}`; and the `"id"` value
equals the requested session id provided no overview row is labelled
`"id"` (after strip/rstrip). -/
theorem c9_detail_fetch_total (sid : String) (f : FetchResult) (doc : Doc)
    (hrows : ∀ r ∈ doc.rows, ¬pyRstripColon (pyStrip r.1) = "id") :
    (dictGet (get_session_data sid f) "id").isSome = true ∧
    (dictGet (get_session_data sid f) "status").isSome = true ∧
    get_session_data sid .failure = [("id", sid), ("status", "Unknown")] ∧
    dictGet (get_session_data sid (.success doc)) "id" = some sid := by
  refine ⟨get_session_data_id_isSome sid f, get_session_data_status_isSome sid f, rfl, ?_⟩
  rcases doc with ⟨h2, rows⟩
  rw [get_session_data_success]
  rw [dictGet_foldl_rowInsert_ne rows _ "id" hrows]
  cases h2 with
  | none => rfl
  | some t =>
    rw [dictGet_dictInsert_ne _ _ _ _ (by decide)]
    rfl

/-- Witness for C9 at a successful fetch with an ordinary overview row. -/
theorem c9_detail_fetch_total_witness :
    (dictGet (get_session_data "42" (.success ⟨some "Status: Running", [("Duration", "5m")]⟩)) "id").isSome = true ∧
    (dictGet (get_session_data "42" (.success ⟨some "Status: Running", [("Duration", "5m")]⟩)) "status").isSome = true ∧
    get_session_data "42" .failure = [("id", "42"), ("status", "Unknown")] ∧
    dictGet (get_session_data "42" (.success ⟨some "Status: Running", [("Duration", "5m")]⟩)) "id" = some "42" :=
  c9_detail_fetch_total "42" (.success ⟨some "Status: Running", [("Duration", "5m")]⟩)
    ⟨some "Status: Running", [("Duration", "5m")]⟩ (by decide)

/-- Claim C1 (corrected) counterexample: the code keeps no prior tracked
state and no `lastChangeAt`; its stuck check compares `now` with the
snapshot's own `Started` timestamp.  With `Started` parsed, `Ended` absent
and `now - started` past the threshold, the stuck warning is emitted, and it
is emitted again one second later — the claimed re-armed `UNCHANGED` on the
second call (no repeated stuck alert within one threshold window) is false. -/
theorem c1_counterexample :
    stuck_flag stuckDict (startedSec + 601) = true ∧
    stuck_flag stuckDict (startedSec + 601 + 1) = true ∧
    format_message stuckDict (startedSec + 601 + 1) =
      some ("Session #42\nStatus: Running\n\nStarted: 16/5/2025, 12.49.25\n" ++ stuckLine) :=
  ⟨rfl, rfl, by decide⟩

/-- Claim C1 (corrected, amended): whenever `Started` is present and parses,
`Ended` is absent, and `now` minus the started timestamp exceeds the stuck
threshold, the message's stuck warning fires — and fires again one second
later; there is no re-arm throttling. -/
theorem c1_stuck_alert_every_cycle (data : Dict) (now : Int) (s : String)
    (st : PyDateTime)
    (hS : dictGet data "Started" = some s)
    (hE : dictGet data "Ended" = none)
    (hp : parse_dt s = some st)
    (hgt : now - dtToSec st > (STUCK_MIN : Int) * 60) :
    stuck_flag data now = true ∧ stuck_flag data (now + 1) = true := by
  unfold stuck_flag
  simp only [hS, hE, hp]
  exact ⟨decide_eq_true hgt, decide_eq_true (by omega)⟩

/-- Witness for C1 on the concrete stuck session, 601 seconds past start. -/
theorem c1_stuck_alert_every_cycle_witness :
    stuck_flag stuckDict (startedSec + 601) = true ∧
    stuck_flag stuckDict (startedSec + 601 + 1) = true :=
  c1_stuck_alert_every_cycle stuckDict (startedSec + 601) "16/5/2025, 12.49.25"
    ⟨2025, 5, 16, 12, 49, 25⟩ rfl rfl rfl (by decide)

/-- Claim C2 (corrected) counterexample: two poll cycles over identical
extractor output with no elapsed time between them; the script keeps no
inter-cycle state, so the second cycle sends the very same notification
again instead of deciding `UNCHANGED` and staying silent. -/
theorem c2_counterexample :
    (run_twice listOk detailOk 0 0).2 =
      some "[Auto Update]\nSession #42\nStatus: Running\n\nDuration: 5m" := rfl

/-- Claim C2 (corrected, amended): the poll cycle is a pure function of the
fetch outcomes and the clock; whenever id extraction yields an id, the
second identical run emits exactly the notification of the first run — it
is never suppressed. -/
theorem c2_second_run_notifies (listF : ListFetch) (detailF : String → FetchResult)
    (t : Int) (sid : String) (h : get_latest_session_id listF = some sid) :
    (run_twice listF detailF t t).2 = (run_twice listF detailF t t).1 ∧
    ((run_twice listF detailF t t).2).isSome = true := by
  refine ⟨rfl, ?_⟩
  show (auto_job listF detailF t).isSome = true
  unfold auto_job
  simp only [h]
  have hfm := format_message_isSome (get_session_data sid (detailF sid)) t
    (get_session_data_id_isSome sid (detailF sid))
  cases hm : format_message (get_session_data sid (detailF sid)) t with
  | none => simp [hm] at hfm
  | some m => rfl

/-- Witness for C2 on the concrete fetch outcomes. -/
theorem c2_second_run_notifies_witness :
    (run_twice listOk detailOk 0 0).2 = (run_twice listOk detailOk 0 0).1 ∧
    ((run_twice listOk detailOk 0 0).2).isSome = true :=
  c2_second_run_notifies listOk detailOk 0 "42" rfl

/-- Claim C4 (corrected) counterexample: the detail fetch fails, yet the
cycle still sends a notification (with the degraded `"Unknown"` status) —
a `FetchError` on the detail endpoint is not handled with the abort-silently
control flow of an `ExtractionError`. -/
theorem c4_counterexample :
    auto_job listOk (fun _ => .failure) 0 =
      some "[Auto Update]\nSession #42\nStatus: Unknown\n" := rfl

/-- Claim C4 (corrected, amended): a failed list fetch or an extraction with
no candidates aborts the cycle with no notification (and there is no tracked
state anywhere to mutate); a detail-fetch failure, however, does not abort:
the dict degrades to the id plus `"Unknown"` status and a notification is
still sent. -/
theorem c4_failure_handling (listF : ListFetch) (detailF : String → FetchResult)
    (t : Int) (sid : String) :
    (get_latest_session_id listF = none → auto_job listF detailF t = none) ∧
    (get_latest_session_id listF = some sid →
      get_session_data sid .failure = [("id", sid), ("status", "Unknown")] ∧
      (auto_job listF (fun _ => .failure) t).isSome = true) := by
  constructor
  · intro h
    unfold auto_job
    rw [h]
  · intro h
    refine ⟨rfl, ?_⟩
    unfold auto_job
    simp only [h]
    have hfm := format_message_isSome (get_session_data sid .failure) t
      (get_session_data_id_isSome sid .failure)
    cases hm : format_message (get_session_data sid .failure) t with
    | none => simp [hm] at hfm
    | some m => rfl

/-- Witness for C4: a failed list fetch stays silent; a failed detail fetch
after a successful id extraction still notifies. -/
theorem c4_failure_handling_witness :
    auto_job .failure detailOk 0 = none ∧
    (get_session_data "42" .failure = [("id", "42"), ("status", "Unknown")] ∧
      (auto_job listOk (fun _ => .failure) 0).isSome = true) :=
  ⟨(c4_failure_handling .failure detailOk 0 "42").1 rfl,
   (c4_failure_handling listOk (fun _ => .failure) 0 "42").2 rfl⟩

/-- Claim C6 (confirmed): parsing `"16/5/2025, 12.49.25"` with the fixed
day/month/year, hour.minute.second format yields 2025-05-16 12:49:25;
`"not-a-date"` parses to `none`; and a `Started` value that fails to parse
only disables the stuck check — the message is still constructed in full,
with the raw field rendered verbatim. -/
theorem c6_timestamp_parsing (s : String) (now : Int) (h : parse_dt s = none) :
    parse_dt "16/5/2025, 12.49.25" =
      some { year := 2025, month := 5, day := 16, hour := 12, minute := 49, second := 25 } ∧
    parse_dt "not-a-date" = none ∧
    format_message [("id", "42"), ("status", "Running"), ("Started", s)] now =
      some ("Session #42\nStatus: Running\n\nStarted: " ++ s) := by
  refine ⟨rfl, rfl, ?_⟩
  have hsf : stuck_flag [("id", "42"), ("status", "Running"), ("Started", s)] now = false := by
    unfold stuck_flag
    have hS : dictGet [("id", "42"), ("status", "Running"), ("Started", s)] "Started" =
        some s := rfl
    have hE : dictGet [("id", "42"), ("status", "Running"), ("Started", s)] "Ended" =
        none := rfl
    simp only [hS, hE, h]
  unfold format_message
  rw [hsf]
  rfl

/-- Witness for C6 at the malformed timestamp string `"not-a-date"`. -/
theorem c6_timestamp_parsing_witness :
    parse_dt "16/5/2025, 12.49.25" =
      some { year := 2025, month := 5, day := 16, hour := 12, minute := 49, second := 25 } ∧
    parse_dt "not-a-date" = none ∧
    format_message [("id", "42"), ("status", "Running"), ("Started", "not-a-date")] 0 =
      some ("Session #42\nStatus: Running\n\nStarted: " ++ "not-a-date") :=
  c6_timestamp_parsing "not-a-date" 0 rfl

/-- Claim C8 (corrected) counterexample: the same input mapping rendered one
second apart — just at and just past the stuck threshold — produces two
different messages: `format_message` reads the wall clock
(`datetime.utcnow()` at line 112), so its output does depend on the time at
which it is called. -/
theorem c8_counterexample :
    format_message stuckDict (startedSec + 600) ≠
      format_message stuckDict (startedSec + 601) := by decide

/-- Claim C8 (corrected, amended): `format_message` is deterministic given
the input mapping together with the clock reading, and the clock enters
only through the stuck check: two calls whose stuck check agrees produce
identical output. -/
theorem c8_deterministic_given_clock (data : Dict) (t₁ t₂ : Int)
    (h : stuck_flag data t₁ = stuck_flag data t₂) :
    format_message data t₁ = format_message data t₂ := by
  unfold format_message
  rw [h]

/-- Witness for C8 at two instants on the same side of the threshold. -/
theorem c8_deterministic_given_clock_witness :
    format_message stuckDict 0 = format_message stuckDict 1 :=
  c8_deterministic_given_clock stuckDict 0 1 (by decide)

end SessionBot
